import Mathlib

/-!
Shallow embedding of the conversation-quality metrics computation of
`analysis/convo_quality.py` (function `compute_metrics` and its helpers).

Modelling conventions:
* timestamps are rational numbers of seconds (UTC); absent timestamps are
  `none`.  Python `datetime` objects are always truthy, so a guard such as
  `if comment.timestamp and pending_customer_ts` is exactly "both not None";
* `minutes_between` divides the second difference by 60 just as the source
  does;
* Python `set` becomes `Finset String`, and `tuple(sorted(s))` becomes
  `Finset.sort (· ≤ ·)` (Python sorts strings by code points, which is the
  `String` linear order used here);
* the regex `\b<term>\b` with `re.IGNORECASE`-free matching over the lowered
  text is modelled over ASCII: a word character is alphanumeric or an
  underscore, and an occurrence of a term at position `i` requires the exact
  characters of the term together with non-word characters (or the ends of
  the text) on both sides.  All terms in the fixed lists are plain lowercase
  letters, so `re.escape` is the identity on them and distinct matches of a
  term can never overlap.
-/

/-- Message role, the three values produced by `determine_role`. -/
inductive Role where
  | agent
  | customer
  | unknown
  deriving DecidableEq, Repr

/-- One conversation turn (dataclass `Comment`).  The display-only
`role_short` field is omitted: `compute_metrics` never reads it. -/
structure Comment where
  timestamp : Option ℚ
  author : String
  role : Role
  text : String
  deriving DecidableEq, Repr

/-- The derived read-only summary (dataclass `ConversationMetrics`). -/
structure ConversationMetrics where
  conversation_start : Option ℚ
  conversation_end : Option ℚ
  duration_minutes : Option ℚ
  first_agent_response_minutes : Option ℚ
  avg_agent_response_minutes : Option ℚ
  avg_customer_response_minutes : Option ℚ
  messages_total : ℕ
  messages_agent : ℕ
  messages_customer : ℕ
  turns : ℕ
  agent_authors : List String
  customer_authors : List String
  initial_response_sla_5m : Option Bool
  initial_response_sla_15m : Option Bool
  agent_profanity_count : ℕ
  customer_abuse_count : ℕ
  deriving DecidableEq, Repr

/-- The tuple `PROFANITY_TERMS` from the source. -/
def PROFANITY_TERMS : List String :=
  ["fuck", "shit", "damn", "hell", "bitch", "bastard", "asshole", "crap"]

/-- The tuple `ABUSE_EXTRA_TERMS` from the source. -/
def ABUSE_EXTRA_TERMS : List String :=
  ["idiot", "stupid", "useless", "moron", "dumb", "terrible", "awful",
   "worthless", "incompetent", "hate"]

/-- The tuple `CUSTOMER_ABUSE_TERMS = PROFANITY_TERMS + ABUSE_EXTRA_TERMS`. -/
def CUSTOMER_ABUSE_TERMS : List String := PROFANITY_TERMS ++ ABUSE_EXTRA_TERMS

/-- ASCII model of the regex word class `\w`. -/
def isWordChar (c : Char) : Bool := c.isAlphanum || c = '_'

/-- The boundary `\b` holds just before position `i`: start of text or non-word char. -/
def boundaryBefore (text : List Char) (i : ℕ) : Bool :=
  decide (i = 0) || !isWordChar (text.getD (i - 1) ' ')

/-- The boundary `\b` holds just after position `j - 1`: end of text or non-word char. -/
def boundaryAfter (text : List Char) (j : ℕ) : Bool :=
  decide (text.length ≤ j) || !isWordChar (text.getD j ' ')

/-- The term occurs at position `i` of the text, with word boundaries. -/
def occursAt (text term : List Char) (i : ℕ) : Bool :=
  decide ((text.drop i).take term.length = term) &&
    boundaryBefore text i && boundaryAfter text (i + term.length)

/-- Number of word-boundary occurrences of `term` in `text`: the count that
`len(re.findall(rf"\b{re.escape(term)}\b", text))` produces for the
letters-only terms used here (fixed-length matches at word boundaries never
overlap, so `findall` returns every occurrence position). -/
def countOccurrences (text term : List Char) : ℕ :=
  ((List.range (text.length + 1)).filter (fun i => occursAt text term i)).length

/-- Function `count_term_hits` from the source: lower the text once, then sum the
occurrence counts of every term. -/
def count_term_hits (text : String) (terms : List String) : ℕ :=
  (terms.map
    (fun term => countOccurrences (text.toList.map Char.toLower) term.toList)).sum

/-- Function `minutes_between` from the source: `(b - a).total_seconds() / 60`. -/
def minutes_between (a b : ℚ) : ℚ := (b - a) / 60

/-- The mutable locals of the message loop in `compute_metrics`. -/
structure LoopState where
  last_agent_time : Option ℚ
  agent_deltas : List ℚ
  customer_deltas : List ℚ
  first_agent_response_minutes : Option ℚ
  last_turn_role : Option Role
  turns : ℕ
  agent_profanity_count : ℕ
  customer_abuse_count : ℕ
  agent_authors_set : Finset String
  customer_authors_set : Finset String
  pending_customer_ts : Option ℚ
  deriving DecidableEq

/-- Loop locals before the first iteration. -/
def initState : LoopState :=
  { last_agent_time := none
    agent_deltas := []
    customer_deltas := []
    first_agent_response_minutes := none
    last_turn_role := none
    turns := 0
    agent_profanity_count := 0
    customer_abuse_count := 0
    agent_authors_set := ∅
    customer_authors_set := ∅
    pending_customer_ts := none }

/-- The `if comment.role == "agent"` branch of the loop body.  Note the
source guards the append with `if delta >= 0`, clears the pending marker and
updates the last agent time whether or not the delta was kept, and sets
`first_agent_response_minutes` only on the first kept delta. -/
def agentStep (s : LoopState) (c : Comment) : LoopState :=
  let s1 :=
    match c.timestamp, s.pending_customer_ts with
    | some ts, some p =>
        let delta := minutes_between p ts
        let s' :=
          if 0 ≤ delta then
            { s with
                agent_deltas := s.agent_deltas ++ [delta]
                first_agent_response_minutes :=
                  some (s.first_agent_response_minutes.getD delta) }
          else s
        { s' with pending_customer_ts := none, last_agent_time := some ts }
    | some ts, none => { s with last_agent_time := some ts }
    | none, _ => s
  let s2 := { s1 with
    agent_profanity_count :=
      s1.agent_profanity_count + count_term_hits c.text PROFANITY_TERMS }
  if c.author ≠ "" then
    { s2 with agent_authors_set := insert c.author s2.agent_authors_set }
  else s2

/-- The `elif comment.role == "customer"` branch of the loop body.  The
customer delta is appended unconditionally whenever a last agent time and a
timestamp exist (no pending gate, no sign filter); the pending marker is set
only when it is currently `None`. -/
def customerStep (s : LoopState) (c : Comment) : LoopState :=
  let s1 :=
    match c.timestamp, s.last_agent_time with
    | some ts, some la =>
        { s with customer_deltas := s.customer_deltas ++ [minutes_between la ts] }
    | _, _ => s
  let s2 :=
    match c.timestamp with
    | some ts =>
        if s1.pending_customer_ts = none then
          { s1 with pending_customer_ts := some ts }
        else s1
    | none => s1
  let s3 := { s2 with
    customer_abuse_count :=
      s2.customer_abuse_count + count_term_hits c.text CUSTOMER_ABUSE_TERMS }
  if c.author ≠ "" then
    { s3 with customer_authors_set := insert c.author s3.customer_authors_set }
  else s3

/-- The turn-counting block at the end of the loop body. -/
def turnStep (s : LoopState) (c : Comment) : LoopState :=
  if c.role = Role.agent ∨ c.role = Role.customer then
    let s1 :=
      match s.last_turn_role with
      | some prev => if c.role ≠ prev then { s with turns := s.turns + 1 } else s
      | none => s
    { s1 with last_turn_role := some c.role }
  else s

/-- One full iteration of the message loop. -/
def step (s : LoopState) (c : Comment) : LoopState :=
  let s1 :=
    match c.role with
    | Role.agent => agentStep s c
    | Role.customer => customerStep s c
    | Role.unknown => s
  turnStep s1 c

/-- The early return of `compute_metrics` on an empty comment list. -/
def emptyMetrics : ConversationMetrics :=
  { conversation_start := none
    conversation_end := none
    duration_minutes := none
    first_agent_response_minutes := none
    avg_agent_response_minutes := none
    avg_customer_response_minutes := none
    messages_total := 0
    messages_agent := 0
    messages_customer := 0
    turns := 0
    agent_authors := []
    customer_authors := []
    initial_response_sla_5m := none
    initial_response_sla_15m := none
    agent_profanity_count := 0
    customer_abuse_count := 0 }

/-- Embedding of `sum(deltas) / len(deltas) if deltas else None`. -/
def avgMinutes (deltas : List ℚ) : Option ℚ :=
  if deltas = [] then none else some (deltas.sum / (deltas.length : ℚ))

/-- The pair of SLA fields: the source computes
`first is not None and first <= threshold` and then overwrites both fields
with `None` when `first` is `None`; the net value is `none` when `first` is
`none` and `some (first ≤ threshold)` otherwise. -/
def slaFlag (first : Option ℚ) (threshold : ℚ) : Option Bool :=
  match first with
  | some v => some (decide (v ≤ threshold))
  | none => none

/-- Function `compute_metrics` from the source, as a total function. -/
def compute_metrics (comments : List Comment) : ConversationMetrics :=
  if comments = [] then emptyMetrics
  else
    let timestamps := comments.filterMap (fun c => c.timestamp)
    let conversation_start := timestamps.min?
    let conversation_end := timestamps.max?
    let duration_minutes :=
      match conversation_start, conversation_end with
      | some a, some b => some (minutes_between a b)
      | _, _ => none
    let final := comments.foldl step initState
    { conversation_start := conversation_start
      conversation_end := conversation_end
      duration_minutes := duration_minutes
      first_agent_response_minutes := final.first_agent_response_minutes
      avg_agent_response_minutes := avgMinutes final.agent_deltas
      avg_customer_response_minutes := avgMinutes final.customer_deltas
      messages_total := comments.length
      messages_agent :=
        (comments.filter (fun c => decide (c.role = Role.agent))).length
      messages_customer :=
        (comments.filter (fun c => decide (c.role = Role.customer))).length
      turns := final.turns
      agent_authors := final.agent_authors_set.sort (· ≤ ·)
      customer_authors := final.customer_authors_set.sort (· ≤ ·)
      initial_response_sla_5m := slaFlag final.first_agent_response_minutes 5
      initial_response_sla_15m := slaFlag final.first_agent_response_minutes 15
      agent_profanity_count := final.agent_profanity_count
      customer_abuse_count := final.customer_abuse_count }

/-- The agent-response delta list accumulated by the loop. -/
def agentDeltasOf (comments : List Comment) : List ℚ :=
  (comments.foldl step initState).agent_deltas

/-- The customer-response delta list accumulated by the loop. -/
def customerDeltasOf (comments : List Comment) : List ℚ :=
  (comments.foldl step initState).customer_deltas

/-- Modelled from the spec: the variant of the agent-delta recording that
"records the delta unconditionally once the sort has been applied" — at
every response opportunity (pending customer timestamp set, agent message
timestamped) the delta is appended with no sign filter.  The pending marker
is set by the first unanswered timestamped customer message and cleared by
the answering timestamped agent message, exactly as in the loop. -/
def rawAgentDeltas : Option ℚ → List Comment → List ℚ
  | _, [] => []
  | pending, c :: rest =>
    match c.role, c.timestamp, pending with
    | Role.agent, some ts, some p => minutes_between p ts :: rawAgentDeltas none rest
    | Role.agent, some _, none => rawAgentDeltas none rest
    | Role.agent, none, q => rawAgentDeltas q rest
    | Role.customer, some ts, none => rawAgentDeltas (some ts) rest
    | Role.customer, some _, some q => rawAgentDeltas (some q) rest
    | Role.customer, none, q => rawAgentDeltas q rest
    | Role.unknown, _, q => rawAgentDeltas q rest

/-- Direct recursion for the customer-response deltas: walking the list with
the timestamp of the most recent timestamped agent message, every timestamped
customer message that follows some timestamped agent message contributes its
own delta — no pending gate of any kind. -/
def customerDeltasSpec : Option ℚ → List Comment → List ℚ
  | _, [] => []
  | la, c :: rest =>
    match c.role, c.timestamp, la with
    | Role.agent, some ts, _ => customerDeltasSpec (some ts) rest
    | Role.agent, none, l => customerDeltasSpec l rest
    | Role.customer, some ts, some a =>
        minutes_between a ts :: customerDeltasSpec (some a) rest
    | Role.customer, some _, none => customerDeltasSpec none rest
    | Role.customer, none, l => customerDeltasSpec l rest
    | Role.unknown, _, l => customerDeltasSpec l rest

/-- Alternation count of a role sequence given the previous role (if any):
each element differing from its predecessor counts one. -/
def altFrom : Option Role → List Role → ℕ
  | _, [] => 0
  | none, r :: rs => altFrom (some r) rs
  | some p, r :: rs => (if r ≠ p then 1 else 0) + altFrom (some r) rs

/-- Number of positions at which an element of the role sequence differs
from the immediately preceding element. -/
def countAlternations (rs : List Role) : ℕ := altFrom none rs

/-- The agent/customer role subsequence of a conversation (unknown-role
messages skipped entirely). -/
def rolesAC (comments : List Comment) : List Role :=
  (comments.filter (fun c => decide (c.role ≠ Role.unknown))).map (fun c => c.role)

/-- Embedding of `min(l)`, raising on an empty list as Python does. -/
def listMinE (l : List ℚ) : Except String ℚ :=
  match l.min? with
  | some v => Except.ok v
  | none => Except.error ("min() arg is an empty sequence")

/-- Embedding of `max(l)`, raising on an empty list as Python does. -/
def listMaxE (l : List ℚ) : Except String ℚ :=
  match l.max? with
  | some v => Except.ok v
  | none => Except.error ("max() arg is an empty sequence")

/-- Embedding of `a / n`, raising on a zero denominator as Python division does. -/
def divE (a : ℚ) (n : ℕ) : Except String ℚ :=
  if n = 0 then Except.error ("division by zero") else Except.ok (a / (n : ℚ))

/-- Embedding of `sum(deltas) / len(deltas) if deltas else None` with the division
instrumented to raise on a zero denominator. -/
def avgMinutesE (deltas : List ℚ) : Except String (Option ℚ) :=
  if deltas = [] then Except.ok none
  else (divE deltas.sum deltas.length).map some

/-- Function `compute_metrics` with every partial Python operation it guards —
`min`/`max` of a possibly-empty sequence and the average divisions —
instrumented to raise instead of being guarded away; an `Except.error`
result marks an uncaught exception. -/
def compute_metricsE (comments : List Comment) : Except String ConversationMetrics :=
  if comments = [] then Except.ok emptyMetrics
  else
    let timestamps := comments.filterMap (fun c => c.timestamp)
    match
      (if timestamps = [] then Except.ok none else (listMinE timestamps).map some),
      (if timestamps = [] then Except.ok none else (listMaxE timestamps).map some) with
    | Except.error e, _ => Except.error e
    | _, Except.error e => Except.error e
    | Except.ok conversation_start, Except.ok conversation_end =>
      let duration_minutes :=
        match conversation_start, conversation_end with
        | some a, some b => some (minutes_between a b)
        | _, _ => none
      let final := comments.foldl step initState
      match avgMinutesE final.agent_deltas, avgMinutesE final.customer_deltas with
      | Except.error e, _ => Except.error e
      | _, Except.error e => Except.error e
      | Except.ok avgA, Except.ok avgC =>
        Except.ok
          { conversation_start := conversation_start
            conversation_end := conversation_end
            duration_minutes := duration_minutes
            first_agent_response_minutes := final.first_agent_response_minutes
            avg_agent_response_minutes := avgA
            avg_customer_response_minutes := avgC
            messages_total := comments.length
            messages_agent :=
              (comments.filter (fun c => decide (c.role = Role.agent))).length
            messages_customer :=
              (comments.filter (fun c => decide (c.role = Role.customer))).length
            turns := final.turns
            agent_authors := final.agent_authors_set.sort (· ≤ ·)
            customer_authors := final.customer_authors_set.sort (· ≤ ·)
            initial_response_sla_5m := slaFlag final.first_agent_response_minutes 5
            initial_response_sla_15m := slaFlag final.first_agent_response_minutes 15
            agent_profanity_count := final.agent_profanity_count
            customer_abuse_count := final.customer_abuse_count }

/-- Pending-marker evolution of the loop: cleared by a timestamped agent
message when set, set by a timestamped customer message when unset. -/
def pendingAfter : Option ℚ → List Comment → Option ℚ
  | p, [] => p
  | p, c :: rest =>
    match c.role, c.timestamp, p with
    | Role.agent, some _, some _ => pendingAfter none rest
    | Role.agent, some _, none => pendingAfter none rest
    | Role.agent, none, q => pendingAfter q rest
    | Role.customer, some ts, none => pendingAfter (some ts) rest
    | Role.customer, some _, some q => pendingAfter (some q) rest
    | Role.customer, none, q => pendingAfter q rest
    | Role.unknown, _, q => pendingAfter q rest

/-- Last-agent-time evolution of the loop: every timestamped agent message
overwrites it. -/
def lastAgentAfter : Option ℚ → List Comment → Option ℚ
  | la, [] => la
  | la, c :: rest =>
    match c.role, c.timestamp with
    | Role.agent, some ts => lastAgentAfter (some ts) rest
    | Role.agent, none => lastAgentAfter la rest
    | Role.customer, _ => lastAgentAfter la rest
    | Role.unknown, _ => lastAgentAfter la rest

/-- Six-message conversation of the pending-marker test (timestamps in
seconds: minutes 0, 2, 7, 10, 11, 15). -/
def exPending : List Comment :=
  [{ timestamp := some 0, author := "", role := Role.customer, text := "" },
   { timestamp := some 120, author := "", role := Role.agent, text := "" },
   { timestamp := some 420, author := "", role := Role.agent, text := "" },
   { timestamp := some 600, author := "", role := Role.customer, text := "" },
   { timestamp := some 660, author := "", role := Role.customer, text := "" },
   { timestamp := some 900, author := "", role := Role.agent, text := "" }]

/-- A customer message timestamped after the agent message that answers it:
the response opportunity computes the negative delta minus ten minutes. -/
def exNeg : List Comment :=
  [{ timestamp := some 600, author := "", role := Role.customer, text := "" },
   { timestamp := some 0, author := "", role := Role.agent, text := "" }]

/-- A first response of exactly 5.0 minutes. -/
def exBoundary5 : List Comment :=
  [{ timestamp := some 0, author := "", role := Role.customer, text := "" },
   { timestamp := some 300, author := "", role := Role.agent, text := "" }]

/-- A first response of 5.01 minutes (300.6 seconds). -/
def exBoundary501 : List Comment :=
  [{ timestamp := some 0, author := "", role := Role.customer, text := "" },
   { timestamp := some (1503 / 5), author := "", role := Role.agent, text := "" }]

/-- A conversation with no agent response at all. -/
def exNoResponse : List Comment :=
  [{ timestamp := some 0, author := "", role := Role.customer, text := "" }]

/-- The role sequence [customer, customer, agent, customer, agent], without
timestamps. -/
def exTurns : List Comment :=
  [{ timestamp := none, author := "", role := Role.customer, text := "" },
   { timestamp := none, author := "", role := Role.customer, text := "" },
   { timestamp := none, author := "", role := Role.agent, text := "" },
   { timestamp := none, author := "", role := Role.customer, text := "" },
   { timestamp := none, author := "", role := Role.agent, text := "" }]

/-- An agent reply followed by a customer burst of two messages. -/
def exBurst : List Comment :=
  [{ timestamp := some 0, author := "", role := Role.agent, text := "" },
   { timestamp := some 60, author := "", role := Role.customer, text := "" },
   { timestamp := some 120, author := "", role := Role.customer, text := "" }]

/-- A single agent message with an empty author string. -/
def exAnon : List Comment :=
  [{ timestamp := none, author := "", role := Role.agent, text := "" }]

lemma agentStep_def (s : LoopState) (c : Comment) :
    agentStep s c =
      { last_agent_time :=
          match c.timestamp with
          | some ts => some ts
          | none => s.last_agent_time
        agent_deltas :=
          match c.timestamp, s.pending_customer_ts with
          | some ts, some p =>
              if 0 ≤ minutes_between p ts then
                s.agent_deltas ++ [minutes_between p ts]
              else s.agent_deltas
          | _, _ => s.agent_deltas
        customer_deltas := s.customer_deltas
        first_agent_response_minutes :=
          match c.timestamp, s.pending_customer_ts with
          | some ts, some p =>
              if 0 ≤ minutes_between p ts then
                some (s.first_agent_response_minutes.getD (minutes_between p ts))
              else s.first_agent_response_minutes
          | _, _ => s.first_agent_response_minutes
        last_turn_role := s.last_turn_role
        turns := s.turns
        agent_profanity_count :=
          s.agent_profanity_count + count_term_hits c.text PROFANITY_TERMS
        customer_abuse_count := s.customer_abuse_count
        agent_authors_set :=
          if c.author ≠ "" then insert c.author s.agent_authors_set
          else s.agent_authors_set
        customer_authors_set := s.customer_authors_set
        pending_customer_ts :=
          match c.timestamp, s.pending_customer_ts with
          | some _, some _ => none
          | _, _ => s.pending_customer_ts } := by
  unfold agentStep
  cases h : c.timestamp <;> cases h2 : s.pending_customer_ts <;>
    simp [h, h2] <;> split_ifs <;> simp [h, h2]

lemma customerStep_def (s : LoopState) (c : Comment) :
    customerStep s c =
      { last_agent_time := s.last_agent_time
        agent_deltas := s.agent_deltas
        customer_deltas :=
          match c.timestamp, s.last_agent_time with
          | some ts, some la => s.customer_deltas ++ [minutes_between la ts]
          | _, _ => s.customer_deltas
        first_agent_response_minutes := s.first_agent_response_minutes
        last_turn_role := s.last_turn_role
        turns := s.turns
        agent_profanity_count := s.agent_profanity_count
        customer_abuse_count :=
          s.customer_abuse_count + count_term_hits c.text CUSTOMER_ABUSE_TERMS
        agent_authors_set := s.agent_authors_set
        customer_authors_set :=
          if c.author ≠ "" then insert c.author s.customer_authors_set
          else s.customer_authors_set
        pending_customer_ts :=
          match c.timestamp, s.pending_customer_ts with
          | some ts, none => some ts
          | _, _ => s.pending_customer_ts } := by
  unfold customerStep
  cases h : c.timestamp <;> cases h2 : s.last_agent_time <;>
    cases h3 : s.pending_customer_ts <;> simp [h, h2, h3] <;> split_ifs <;>
    simp [h, h2, h3]

lemma turnStep_def (s : LoopState) (c : Comment) :
    turnStep s c =
      if c.role = Role.unknown then s
      else
        { s with
            turns :=
              match s.last_turn_role with
              | some prev => if c.role ≠ prev then s.turns + 1 else s.turns
              | none => s.turns
            last_turn_role := some c.role } := by
  unfold turnStep
  cases hr : c.role <;> cases h : s.last_turn_role <;> simp [hr, h] <;>
    split_ifs <;> simp [hr, h]

lemma step_pending (s : LoopState) (c : Comment) :
    (step s c).pending_customer_ts =
      match c.role with
      | Role.agent =>
          (match c.timestamp, s.pending_customer_ts with
           | some _, some _ => none
           | _, _ => s.pending_customer_ts)
      | Role.customer =>
          (match c.timestamp, s.pending_customer_ts with
           | some ts, none => some ts
           | _, _ => s.pending_customer_ts)
      | Role.unknown => s.pending_customer_ts := by
  cases hr : c.role <;>
    simp [step, hr, turnStep_def, agentStep_def, customerStep_def]

lemma step_agent_deltas (s : LoopState) (c : Comment) :
    (step s c).agent_deltas =
      match c.role with
      | Role.agent =>
          (match c.timestamp, s.pending_customer_ts with
           | some ts, some p =>
               if 0 ≤ minutes_between p ts then
                 s.agent_deltas ++ [minutes_between p ts]
               else s.agent_deltas
           | _, _ => s.agent_deltas)
      | _ => s.agent_deltas := by
  cases hr : c.role <;>
    simp [step, hr, turnStep_def, agentStep_def, customerStep_def]

lemma step_first (s : LoopState) (c : Comment) :
    (step s c).first_agent_response_minutes =
      match c.role with
      | Role.agent =>
          (match c.timestamp, s.pending_customer_ts with
           | some ts, some p =>
               if 0 ≤ minutes_between p ts then
                 some (s.first_agent_response_minutes.getD (minutes_between p ts))
               else s.first_agent_response_minutes
           | _, _ => s.first_agent_response_minutes)
      | _ => s.first_agent_response_minutes := by
  cases hr : c.role <;>
    simp [step, hr, turnStep_def, agentStep_def, customerStep_def]

lemma step_last_agent (s : LoopState) (c : Comment) :
    (step s c).last_agent_time =
      match c.role with
      | Role.agent =>
          (match c.timestamp with
           | some ts => some ts
           | none => s.last_agent_time)
      | _ => s.last_agent_time := by
  cases hr : c.role <;>
    simp [step, hr, turnStep_def, agentStep_def, customerStep_def]

lemma step_customer_deltas (s : LoopState) (c : Comment) :
    (step s c).customer_deltas =
      match c.role with
      | Role.customer =>
          (match c.timestamp, s.last_agent_time with
           | some ts, some la => s.customer_deltas ++ [minutes_between la ts]
           | _, _ => s.customer_deltas)
      | _ => s.customer_deltas := by
  cases hr : c.role <;>
    simp [step, hr, turnStep_def, agentStep_def, customerStep_def]

lemma step_turns (s : LoopState) (c : Comment) :
    (step s c).turns =
      if c.role = Role.unknown then s.turns
      else
        match s.last_turn_role with
        | some prev => if c.role ≠ prev then s.turns + 1 else s.turns
        | none => s.turns := by
  cases hr : c.role <;>
    simp [step, hr, turnStep_def, agentStep_def, customerStep_def]

lemma step_last_turn (s : LoopState) (c : Comment) :
    (step s c).last_turn_role =
      if c.role = Role.unknown then s.last_turn_role else some c.role := by
  cases hr : c.role <;>
    simp [step, hr, turnStep_def, agentStep_def, customerStep_def]

lemma step_prof (s : LoopState) (c : Comment) :
    (step s c).agent_profanity_count =
      s.agent_profanity_count +
        (if c.role = Role.agent then count_term_hits c.text PROFANITY_TERMS
         else 0) := by
  cases hr : c.role <;>
    simp [step, hr, turnStep_def, agentStep_def, customerStep_def]

lemma step_abuse (s : LoopState) (c : Comment) :
    (step s c).customer_abuse_count =
      s.customer_abuse_count +
        (if c.role = Role.customer then count_term_hits c.text CUSTOMER_ABUSE_TERMS
         else 0) := by
  cases hr : c.role <;>
    simp [step, hr, turnStep_def, agentStep_def, customerStep_def]

lemma step_agent_authors (s : LoopState) (c : Comment) :
    (step s c).agent_authors_set =
      if c.role = Role.agent ∧ c.author ≠ "" then
        insert c.author s.agent_authors_set
      else s.agent_authors_set := by
  cases hr : c.role <;>
    simp [step, hr, turnStep_def, agentStep_def, customerStep_def] <;>
    split_ifs <;> simp_all

lemma step_customer_authors (s : LoopState) (c : Comment) :
    (step s c).customer_authors_set =
      if c.role = Role.customer ∧ c.author ≠ "" then
        insert c.author s.customer_authors_set
      else s.customer_authors_set := by
  cases hr : c.role <;>
    simp [step, hr, turnStep_def, agentStep_def, customerStep_def] <;>
    split_ifs <;> simp_all

lemma foldl_pending (l : List Comment) :
    ∀ s : LoopState,
      (l.foldl step s).pending_customer_ts = pendingAfter s.pending_customer_ts l := by
  induction l with
  | nil => intro s; simp [pendingAfter]
  | cons c rest ih =>
      intro s
      rw [List.foldl_cons, ih (step s c), step_pending]
      cases hr : c.role <;> cases ht : c.timestamp <;>
        cases h2 : s.pending_customer_ts <;> simp [pendingAfter, hr, ht, h2]

lemma foldl_agent_deltas (l : List Comment) :
    ∀ s : LoopState,
      (l.foldl step s).agent_deltas =
        s.agent_deltas ++
          (rawAgentDeltas s.pending_customer_ts l).filter (fun d => decide (0 ≤ d)) := by
  induction l with
  | nil => intro s; simp [rawAgentDeltas]
  | cons c rest ih =>
      intro s
      rw [List.foldl_cons, ih (step s c), step_agent_deltas, step_pending]
      cases hr : c.role <;> cases ht : c.timestamp <;>
        cases h2 : s.pending_customer_ts <;>
        simp [rawAgentDeltas, hr, ht, h2, List.filter_cons] <;>
        split_ifs <;> simp_all

lemma foldl_first (l : List Comment) :
    ∀ s : LoopState,
      s.first_agent_response_minutes = s.agent_deltas.head? →
      (l.foldl step s).first_agent_response_minutes =
        (l.foldl step s).agent_deltas.head? := by
  induction l with
  | nil => intro s h; simpa using h
  | cons c rest ih =>
      intro s h
      rw [List.foldl_cons]
      refine ih (step s c) ?_
      rw [step_first, step_agent_deltas]
      cases hr : c.role <;> cases ht : c.timestamp <;>
        cases h2 : s.pending_customer_ts <;> simp only [] <;>
        first
        | exact h
        | (split_ifs with h3
           · cases hd : s.agent_deltas <;> simp_all
           · exact h)

lemma foldl_last_agent (l : List Comment) :
    ∀ s : LoopState,
      (l.foldl step s).last_agent_time = lastAgentAfter s.last_agent_time l := by
  induction l with
  | nil => intro s; simp [lastAgentAfter]
  | cons c rest ih =>
      intro s
      rw [List.foldl_cons, ih (step s c), step_last_agent]
      cases hr : c.role <;> cases ht : c.timestamp <;>
        simp [lastAgentAfter, hr, ht]

lemma foldl_customer_deltas (l : List Comment) :
    ∀ s : LoopState,
      (l.foldl step s).customer_deltas =
        s.customer_deltas ++ customerDeltasSpec s.last_agent_time l := by
  induction l with
  | nil => intro s; simp [customerDeltasSpec]
  | cons c rest ih =>
      intro s
      rw [List.foldl_cons, ih (step s c), step_customer_deltas, step_last_agent]
      cases hr : c.role <;> cases ht : c.timestamp <;>
        cases h2 : s.last_agent_time <;>
        simp [customerDeltasSpec, hr, ht, h2]

lemma foldl_turns (l : List Comment) :
    ∀ s : LoopState,
      (l.foldl step s).turns = s.turns + altFrom s.last_turn_role (rolesAC l) := by
  induction l with
  | nil => intro s; simp [rolesAC, altFrom]
  | cons c rest ih =>
      intro s
      rw [List.foldl_cons, ih (step s c), step_turns, step_last_turn]
      cases hr : c.role <;> cases h : s.last_turn_role <;>
        simp [rolesAC, altFrom, hr, h] <;>
        split_ifs <;> omega

lemma foldl_prof (l : List Comment) :
    ∀ s : LoopState,
      (l.foldl step s).agent_profanity_count =
        s.agent_profanity_count +
          ((l.filter (fun c => decide (c.role = Role.agent))).map
            (fun c => count_term_hits c.text PROFANITY_TERMS)).sum := by
  induction l with
  | nil => intro s; simp
  | cons c rest ih =>
      intro s
      rw [List.foldl_cons, ih (step s c), step_prof]
      cases hr : c.role <;> simp [hr, List.filter_cons] <;> omega

lemma foldl_abuse (l : List Comment) :
    ∀ s : LoopState,
      (l.foldl step s).customer_abuse_count =
        s.customer_abuse_count +
          ((l.filter (fun c => decide (c.role = Role.customer))).map
            (fun c => count_term_hits c.text CUSTOMER_ABUSE_TERMS)).sum := by
  induction l with
  | nil => intro s; simp
  | cons c rest ih =>
      intro s
      rw [List.foldl_cons, ih (step s c), step_abuse]
      cases hr : c.role <;> simp [hr, List.filter_cons] <;> omega

lemma foldl_agent_authors (l : List Comment) :
    ∀ s : LoopState,
      (l.foldl step s).agent_authors_set =
        s.agent_authors_set ∪
          ((l.filter (fun c => decide (c.role = Role.agent ∧ c.author ≠ ""))).map
            (fun c => c.author)).toFinset := by
  induction l with
  | nil => intro s; simp
  | cons c rest ih =>
      intro s
      rw [List.foldl_cons, ih (step s c), step_agent_authors]
      by_cases hc : c.role = Role.agent ∧ c.author ≠ "" <;>
        simp [hc, List.filter_cons, Finset.union_comm, Finset.union_assoc,
          Finset.insert_union, Finset.union_insert]

lemma foldl_customer_authors (l : List Comment) :
    ∀ s : LoopState,
      (l.foldl step s).customer_authors_set =
        s.customer_authors_set ∪
          ((l.filter (fun c => decide (c.role = Role.customer ∧ c.author ≠ ""))).map
            (fun c => c.author)).toFinset := by
  induction l with
  | nil => intro s; simp
  | cons c rest ih =>
      intro s
      rw [List.foldl_cons, ih (step s c), step_customer_authors]
      by_cases hc : c.role = Role.customer ∧ c.author ≠ "" <;>
        simp [hc, List.filter_cons, Finset.union_comm, Finset.union_assoc,
          Finset.insert_union, Finset.union_insert]

lemma agentDeltasOf_eq (l : List Comment) :
    agentDeltasOf l = (rawAgentDeltas none l).filter (fun d => decide (0 ≤ d)) := by
  have h := foldl_agent_deltas l initState
  simpa [agentDeltasOf, initState] using h

lemma customerDeltasOf_eq (l : List Comment) :
    customerDeltasOf l = customerDeltasSpec none l := by
  have h := foldl_customer_deltas l initState
  simpa [customerDeltasOf, initState] using h

lemma metrics_first (l : List Comment) :
    (compute_metrics l).first_agent_response_minutes = (agentDeltasOf l).head? := by
  cases l with
  | nil => rfl
  | cons c rest =>
      simp only [compute_metrics, List.cons_ne_nil, if_false]
      exact foldl_first (c :: rest) initState rfl

lemma metrics_avg_agent (l : List Comment) :
    (compute_metrics l).avg_agent_response_minutes = avgMinutes (agentDeltasOf l) := by
  cases l with
  | nil => rfl
  | cons c rest => simp only [compute_metrics, List.cons_ne_nil, if_false]; rfl

lemma metrics_avg_customer (l : List Comment) :
    (compute_metrics l).avg_customer_response_minutes = avgMinutes (customerDeltasOf l) := by
  cases l with
  | nil => rfl
  | cons c rest => simp only [compute_metrics, List.cons_ne_nil, if_false]; rfl

lemma metrics_sla5 (l : List Comment) :
    (compute_metrics l).initial_response_sla_5m =
      slaFlag (compute_metrics l).first_agent_response_minutes 5 := by
  cases l with
  | nil => rfl
  | cons c rest => simp only [compute_metrics, List.cons_ne_nil, if_false]

lemma metrics_sla15 (l : List Comment) :
    (compute_metrics l).initial_response_sla_15m =
      slaFlag (compute_metrics l).first_agent_response_minutes 15 := by
  cases l with
  | nil => rfl
  | cons c rest => simp only [compute_metrics, List.cons_ne_nil, if_false]

lemma metrics_turns (l : List Comment) :
    (compute_metrics l).turns = countAlternations (rolesAC l) := by
  cases l with
  | nil => rfl
  | cons c rest =>
      simp only [compute_metrics, List.cons_ne_nil, if_false]
      rw [foldl_turns (c :: rest) initState]
      simp [initState, countAlternations]

lemma metrics_prof (l : List Comment) :
    (compute_metrics l).agent_profanity_count =
      ((l.filter (fun c => decide (c.role = Role.agent))).map
        (fun c => count_term_hits c.text PROFANITY_TERMS)).sum := by
  cases l with
  | nil => rfl
  | cons c rest =>
      simp only [compute_metrics, List.cons_ne_nil, if_false]
      rw [foldl_prof (c :: rest) initState]
      simp [initState]

lemma metrics_abuse (l : List Comment) :
    (compute_metrics l).customer_abuse_count =
      ((l.filter (fun c => decide (c.role = Role.customer))).map
        (fun c => count_term_hits c.text CUSTOMER_ABUSE_TERMS)).sum := by
  cases l with
  | nil => rfl
  | cons c rest =>
      simp only [compute_metrics, List.cons_ne_nil, if_false]
      rw [foldl_abuse (c :: rest) initState]
      simp [initState]

lemma metrics_agent_authors_sorted (l : List Comment) :
    List.Sorted (· ≤ ·) (compute_metrics l).agent_authors := by
  cases l with
  | nil => simp [compute_metrics, emptyMetrics]
  | cons c rest =>
      simp only [compute_metrics, List.cons_ne_nil, if_false]
      exact Finset.sort_sorted _ _

lemma metrics_customer_authors_sorted (l : List Comment) :
    List.Sorted (· ≤ ·) (compute_metrics l).customer_authors := by
  cases l with
  | nil => simp [compute_metrics, emptyMetrics]
  | cons c rest =>
      simp only [compute_metrics, List.cons_ne_nil, if_false]
      exact Finset.sort_sorted _ _

lemma metrics_agent_authors_nodup (l : List Comment) :
    (compute_metrics l).agent_authors.Nodup := by
  cases l with
  | nil => simp [compute_metrics, emptyMetrics]
  | cons c rest =>
      simp only [compute_metrics, List.cons_ne_nil, if_false]
      exact Finset.sort_nodup _ _

lemma metrics_customer_authors_nodup (l : List Comment) :
    (compute_metrics l).customer_authors.Nodup := by
  cases l with
  | nil => simp [compute_metrics, emptyMetrics]
  | cons c rest =>
      simp only [compute_metrics, List.cons_ne_nil, if_false]
      exact Finset.sort_nodup _ _

lemma metrics_agent_authors_no_empty (l : List Comment) :
    "" ∉ (compute_metrics l).agent_authors := by
  cases l with
  | nil => simp [compute_metrics, emptyMetrics]
  | cons c rest =>
      simp only [compute_metrics, List.cons_ne_nil, if_false, Finset.mem_sort]
      rw [foldl_agent_authors (c :: rest) initState]
      simp [initState]

lemma metrics_customer_authors_no_empty (l : List Comment) :
    "" ∉ (compute_metrics l).customer_authors := by
  cases l with
  | nil => simp [compute_metrics, emptyMetrics]
  | cons c rest =>
      simp only [compute_metrics, List.cons_ne_nil, if_false, Finset.mem_sort]
      rw [foldl_customer_authors (c :: rest) initState]
      simp [initState]

lemma slaFlag_map (f : Option ℚ) (t : ℚ) :
    slaFlag f t = f.map (fun v => decide (v ≤ t)) := by
  cases f <;> rfl

/-- C1: on [customer@0, agent@2, agent@7, customer@10, customer@11,
agent@15] (minutes), `compute_metrics` reports a first agent response of 2
minutes and an average of 3.5 minutes: exactly the two deltas 2 and 5 are
recorded, because the agent follow-up at minute 7 finds no pending customer
marker and the customer follow-up at minute 11 does not reset it. -/
theorem agent_response_pending_marker :
    (compute_metrics exPending).first_agent_response_minutes = some 2 ∧
    (compute_metrics exPending).avg_agent_response_minutes = some (7 / 2) ∧
    agentDeltasOf exPending = [2, 5] := by
  have hd : agentDeltasOf exPending = [2, 5] := by
    rw [agentDeltasOf_eq]
    norm_num [exPending, rawAgentDeltas, minutes_between]
  refine ⟨?_, ?_, hd⟩
  · rw [metrics_first, hd]; rfl
  · rw [metrics_avg_agent, hd]
    norm_num [avgMinutes]
    simp

/-- C2 (counterexample): `compute_metrics` does not record agent response
deltas unconditionally — at the response opportunity of `exNeg` the raw
delta is minus ten minutes, yet the recorded agent-delta list is empty and
no first-response value is produced, because the code guards the append
with `delta >= 0`. -/
theorem agent_delta_filter_counterexample :
    rawAgentDeltas none exNeg = [-10] ∧
    agentDeltasOf exNeg = [] ∧
    (compute_metrics exNeg).first_agent_response_minutes = none := by
  have hraw : rawAgentDeltas none exNeg = [-10] := by
    norm_num [exNeg, rawAgentDeltas, minutes_between]
  have hd : agentDeltasOf exNeg = [] := by
    rw [agentDeltasOf_eq, hraw]
    norm_num
  exact ⟨hraw, hd, by rw [metrics_first, hd]; rfl⟩

/-- C2 (amended): the agent-response-delta list equals the unconditional
opportunity deltas filtered by `delta >= 0` — a delta at a response
opportunity is appended exactly when it is nonnegative — and
`first_agent_response_minutes` is the first recorded delta. -/
theorem agent_deltas_filtered_nonneg (l : List Comment) :
    agentDeltasOf l = (rawAgentDeltas none l).filter (fun d => decide (0 ≤ d)) ∧
    (compute_metrics l).first_agent_response_minutes = (agentDeltasOf l).head? :=
  ⟨agentDeltasOf_eq l, metrics_first l⟩

/-- C6: on the empty message list `compute_metrics` returns the all-null /
all-zero record: every timing field and both SLA flags are `none`, every
count is zero and both author lists are empty. -/
theorem empty_metrics_all_null :
    compute_metrics [] = emptyMetrics ∧
    (compute_metrics []).conversation_start = none ∧
    (compute_metrics []).conversation_end = none ∧
    (compute_metrics []).duration_minutes = none ∧
    (compute_metrics []).first_agent_response_minutes = none ∧
    (compute_metrics []).avg_agent_response_minutes = none ∧
    (compute_metrics []).avg_customer_response_minutes = none ∧
    (compute_metrics []).initial_response_sla_5m = none ∧
    (compute_metrics []).initial_response_sla_15m = none ∧
    (compute_metrics []).messages_total = 0 ∧
    (compute_metrics []).messages_agent = 0 ∧
    (compute_metrics []).messages_customer = 0 ∧
    (compute_metrics []).turns = 0 ∧
    (compute_metrics []).agent_profanity_count = 0 ∧
    (compute_metrics []).customer_abuse_count = 0 ∧
    (compute_metrics []).agent_authors = [] ∧
    (compute_metrics []).customer_authors = [] := by
  decide

lemma first_exBoundary5 :
    (compute_metrics exBoundary5).first_agent_response_minutes = some 5 := by
  rw [metrics_first, agentDeltasOf_eq]
  norm_num [exBoundary5, rawAgentDeltas, minutes_between]

lemma first_exBoundary501 :
    (compute_metrics exBoundary501).first_agent_response_minutes = some (501 / 100) := by
  rw [metrics_first, agentDeltasOf_eq]
  norm_num [exBoundary501, rawAgentDeltas, minutes_between]

lemma first_exNoResponse :
    (compute_metrics exNoResponse).first_agent_response_minutes = none := by
  rw [metrics_first, agentDeltasOf_eq]
  norm_num [exNoResponse, rawAgentDeltas]

lemma sla5_exBoundary5 :
    (compute_metrics exBoundary5).initial_response_sla_5m = some true := by
  rw [metrics_sla5, first_exBoundary5]
  norm_num [slaFlag]

/-- C3: each SLA flag is exactly the comparison of
`first_agent_response_minutes` with its threshold when that value exists
and `none` when it does not: a first response of exactly 5.0 minutes meets
the 5-minute SLA, 5.01 minutes fails it, and an undefined first response
leaves both flags null. -/
theorem sla_thresholds :
    (∀ l : List Comment,
      (compute_metrics l).initial_response_sla_5m =
        ((compute_metrics l).first_agent_response_minutes).map
          (fun v => decide (v ≤ 5)) ∧
      (compute_metrics l).initial_response_sla_15m =
        ((compute_metrics l).first_agent_response_minutes).map
          (fun v => decide (v ≤ 15))) ∧
    (compute_metrics exBoundary5).first_agent_response_minutes = some 5 ∧
    (compute_metrics exBoundary5).initial_response_sla_5m = some true ∧
    (compute_metrics exBoundary501).first_agent_response_minutes = some (501 / 100) ∧
    (compute_metrics exBoundary501).initial_response_sla_5m = some false ∧
    (compute_metrics exBoundary501).initial_response_sla_15m = some true ∧
    (compute_metrics exNoResponse).first_agent_response_minutes = none ∧
    (compute_metrics exNoResponse).initial_response_sla_5m = none ∧
    (compute_metrics exNoResponse).initial_response_sla_15m = none := by
  refine ⟨fun l => ⟨?_, ?_⟩, first_exBoundary5, sla5_exBoundary5, first_exBoundary501,
    ?_, ?_, first_exNoResponse, ?_, ?_⟩
  · rw [metrics_sla5, slaFlag_map]
  · rw [metrics_sla15, slaFlag_map]
  · rw [metrics_sla5, first_exBoundary501]
    norm_num [slaFlag]
  · rw [metrics_sla15, first_exBoundary501]
    norm_num [slaFlag]
  · rw [metrics_sla5, first_exNoResponse]; rfl
  · rw [metrics_sla15, first_exNoResponse]; rfl

/-- C4: the turn count is the number of positions at which an
agent-or-customer message differs in role from the previous
agent-or-customer message, unknown-role messages skipped entirely;
[customer, customer, agent, customer, agent] yields 3 turns, and a
conversation with at most one message yields 0. -/
theorem turn_count_alternations :
    (∀ l : List Comment, (compute_metrics l).turns = countAlternations (rolesAC l)) ∧
    (compute_metrics exTurns).turns = 3 ∧
    (∀ c : Comment, (compute_metrics [c]).turns = 0) ∧
    (compute_metrics ([] : List Comment)).turns = 0 := by
  refine ⟨metrics_turns, ?_, ?_, by decide⟩
  · rw [metrics_turns]; decide
  · intro c
    rw [metrics_turns]
    cases hr : c.role <;> simp [rolesAC, countAlternations, altFrom, hr,
      List.filter_cons]

/-- C5: the profanity and abuse counters sum, over the messages of the
matching role, the number of case-insensitive whole-word occurrences of
every term — every occurrence counts, so a text containing "damn" twice
(in any letter case) contributes 2, while "damnation" contains no
word-boundary occurrence of "damn"; the customer list is the profanity
list plus the extra insult terms. -/
theorem keyword_hits_occurrences :
    (∀ l : List Comment,
      (compute_metrics l).agent_profanity_count =
        ((l.filter (fun c => decide (c.role = Role.agent))).map
          (fun c => count_term_hits c.text PROFANITY_TERMS)).sum ∧
      (compute_metrics l).customer_abuse_count =
        ((l.filter (fun c => decide (c.role = Role.customer))).map
          (fun c => count_term_hits c.text CUSTOMER_ABUSE_TERMS)).sum) ∧
    CUSTOMER_ABUSE_TERMS = PROFANITY_TERMS ++ ABUSE_EXTRA_TERMS ∧
    count_term_hits ("Damn it, damn!") PROFANITY_TERMS = 2 ∧
    count_term_hits ("damnation damn") PROFANITY_TERMS = 1 ∧
    count_term_hits ("stupid useless idiot") CUSTOMER_ABUSE_TERMS = 3 := by
  exact ⟨fun l => ⟨metrics_prof l, metrics_abuse l⟩, rfl, by decide, by decide,
    by decide⟩

/-- C7: every timestamped customer message following some timestamped agent
message contributes its own delta from the last agent timestamp — with no
pending-marker gate, so each message of a customer burst contributes — and
the average customer response time is the arithmetic mean of that list
(null when it is empty). -/
theorem customer_deltas_ungated :
    (∀ l : List Comment,
      customerDeltasOf l = customerDeltasSpec none l ∧
      (compute_metrics l).avg_customer_response_minutes =
        avgMinutes (customerDeltasOf l)) ∧
    customerDeltasOf exBurst = [1, 2] ∧
    (compute_metrics exBurst).avg_customer_response_minutes = some (3 / 2) := by
  have hb : customerDeltasOf exBurst = [1, 2] := by
    rw [customerDeltasOf_eq]
    norm_num [exBurst, customerDeltasSpec, minutes_between]
  refine ⟨fun l => ⟨customerDeltasOf_eq l, metrics_avg_customer l⟩, hb, ?_⟩
  rw [metrics_avg_customer, hb]
  norm_num [avgMinutes]
  simp

/-- C9: when defined, the 5-minute SLA flag implies the 15-minute SLA flag,
and the two flags are always both null or both non-null. -/
theorem sla_consistency (l : List Comment) :
    ((compute_metrics l).initial_response_sla_5m = some true →
      (compute_metrics l).initial_response_sla_15m = some true) ∧
    ((compute_metrics l).initial_response_sla_5m).isSome =
      ((compute_metrics l).initial_response_sla_15m).isSome := by
  rw [metrics_sla5, metrics_sla15]
  cases h : (compute_metrics l).first_agent_response_minutes with
  | none => simp [slaFlag]
  | some v =>
      constructor
      · intro h5
        simp only [slaFlag, Option.some.injEq] at h5 ⊢
        have hv : v ≤ 5 := of_decide_eq_true h5
        exact decide_eq_true (le_trans hv (by norm_num))
      · simp [slaFlag]

/-- C9 witness: a conversation whose first response is exactly 5 minutes
satisfies the 5-minute SLA, hence by `sla_consistency` also the 15-minute
SLA. -/
theorem sla_consistency_witness :
    (compute_metrics exBoundary5).initial_response_sla_5m = some true ∧
    (compute_metrics exBoundary5).initial_response_sla_15m = some true :=
  ⟨sla5_exBoundary5, (sla_consistency exBoundary5).1 sla5_exBoundary5⟩

/-- C10: the author lists returned by `compute_metrics` are sorted
ascending, duplicate-free and never contain the empty string; a message
with an empty author is still counted in the per-role message count but is
excluded from the author set. -/
theorem author_sets_invariants :
    (∀ l : List Comment,
      List.Sorted (· ≤ ·) (compute_metrics l).agent_authors ∧
      (compute_metrics l).agent_authors.Nodup ∧
      "" ∉ (compute_metrics l).agent_authors ∧
      List.Sorted (· ≤ ·) (compute_metrics l).customer_authors ∧
      (compute_metrics l).customer_authors.Nodup ∧
      "" ∉ (compute_metrics l).customer_authors) ∧
    (compute_metrics exAnon).messages_agent = 1 ∧
    (compute_metrics exAnon).agent_authors = [] := by
  refine ⟨fun l => ⟨metrics_agent_authors_sorted l, metrics_agent_authors_nodup l,
    metrics_agent_authors_no_empty l, metrics_customer_authors_sorted l,
    metrics_customer_authors_nodup l, metrics_customer_authors_no_empty l⟩,
    by decide, ?_⟩
  simp only [exAnon, compute_metrics, List.cons_ne_nil, if_false]
  rw [foldl_agent_authors]
  simp [initState]

/-- C8: `compute_metrics` is total and raises no exception: the variant in
which every partial operation the source guards (`min`/`max` of a possibly
empty sequence, the average divisions) is instrumented to raise always
returns `Except.ok` with exactly the value of the total function — for the
empty list and for inputs with any subset of timestamps missing. -/
theorem compute_metrics_total (l : List Comment) :
    compute_metricsE l = Except.ok (compute_metrics l) := by
  cases l with
  | nil => rfl
  | cons c rest =>
      simp only [compute_metricsE, compute_metrics, List.cons_ne_nil, if_false]
      cases hA : (List.foldl step initState (c :: rest)).agent_deltas <;>
        cases hC : (List.foldl step initState (c :: rest)).customer_deltas <;>
        cases hts : (c :: rest).filterMap (fun c => c.timestamp) <;>
        simp [hts, hA, hC, listMinE, listMaxE, avgMinutesE, avgMinutes, divE,
          List.min?, List.max?, Except.map]
